import Mathlib

/-!
Verification of the pyocl repository (pyocl/core.py and pyocl/sim.py)
against its natural-language specification.

The Python code is shallowly embedded: pure control flow becomes Lean
functions, the OpenCL runtime environment (platforms, devices, driver
capabilities, success of context construction) becomes explicit inputs,
and Python exceptions become `Except` errors.
-/

namespace PyOCL

/-- OpenCL device types, as in `pyopencl.device_type`. -/
inductive DevType where
  | GPU
  | CPU
  | ACCELERATOR
  deriving DecidableEq, Repr

/-- An OpenCL device: its reported type and an identifier giving its place
in the driver enumeration order. -/
structure Device where
  devType : DevType
  id : Nat
  deriving DecidableEq, Repr

/-- An OpenCL platform, as observed by `core.py`: the device lists returned
by `platform.get_devices(cl.device_type.GPU)` / `(cl.device_type.CPU)` and
the extension string list of the platform (`platform.extensions`). -/
structure Platform where
  gpuDevices : List Device
  cpuDevices : List Device
  extensions : List String
  deriving DecidableEq, Repr

/-- An OpenCL context as `core.py` builds one with `cl.Context(...)`:
the platform passed in `properties`, the explicit `devices` list
(the GL-sharing construction at lines 72-74 passes none), and whether the
GL-sharing properties were requested. -/
structure CLContext where
  platform : Platform
  devices : List Device
  glSharing : Bool
  deriving DecidableEq, Repr

/-- Errors a `Core(...)` construction can raise. -/
inductive CoreError where
  /-- the `RuntimeError` (no OpenCL device currently available) raised at core.py line 65. -/
  | noDeviceAvailable
  /-- Python `AttributeError`: an attribute lookup on the instance failed. -/
  | attributeError
  deriving DecidableEq, Repr

/-- The fields a successfully constructed `Core` instance holds. -/
structure CoreState where
  device : Device
  platform : Platform
  context : CLContext
  glInterop : Bool
  deriving DecidableEq, Repr

/-- The five members declared in the `OpenCLFlags` enum class body
(core.py lines 9-17). -/
inductive OpenCLFlags where
  | ENABLE_DEBUG
  | ENABLE_COMPILER_OUTPUT
  | ENABLE_CACHE
  | DISABLE_NON_FINITE_MATH
  | DISABLE_OPTIMISATIONS
  deriving DecidableEq, Repr

/-- The names bound in the module scope of `pyocl/core.py` at the moment the
`OpenCLFlags` class body executes: the imports of the module (lines 2-6). -/
def coreModuleScope : List String :=
  ["os", "Enum", "auto", "List", "Tuple", "logging", "cl"]

/-- The name referenced on the right-hand side of each assignment in the
`OpenCLFlags` class body, in order (core.py lines 13-17).  Line 16 reads
`DISABLE_NON_FINITE_MATH = asuto()`. -/
def openCLFlagsBodyRefs : List String :=
  ["auto", "auto", "auto", "asuto", "auto"]

/-- Evaluating the `OpenCLFlags` class body succeeds exactly when every name
referenced in it resolves in the enclosing module scope; an unresolved name
raises `NameError` and aborts the class definition. -/
def openCLFlagsDefines : Bool :=
  openCLFlagsBodyRefs.all (fun n => coreModuleScope.contains n)

/-- `Core.enableCompilerCache` (core.py lines 85-92): the value written to the
environment variable `PYOPENCL_NO_CACHE`.  The source reads
`"1" if (state == OpenCLFlags.ENABLE_CACHE) else "1"` (single-quoted in Python). -/
def enableCompilerCache (state : OpenCLFlags) : String :=
  if state = OpenCLFlags.ENABLE_CACHE then "1" else "1"

/-- `Core.enableCompilerOutput` (core.py lines 94-101): the value written to
the environment variable `PYOPENCL_COMPILER_OUTPUT`.  The source reads
`"" if (state == OpenCLFlags.ENABLE_COMPILER_OUTPUT) else "1"` (single-quoted in Python). -/
def enableCompilerOutput (state : OpenCLFlags) : String :=
  if state = OpenCLFlags.ENABLE_COMPILER_OUTPUT then "" else "1"

/-- `Core.isUsingGPU` (core.py lines 103-107): whether the selected device
reports type GPU. -/
def isUsingGPU (d : Device) : Bool :=
  d.devType = DevType.GPU

/-- `Core.hasGLShareExtension` (core.py lines 237-243): whether the selected
extension list of the platform advertises `cl_khr_gl_sharing`. -/
def hasGLShareExtension (p : Platform) : Bool :=
  p.extensions.contains "cl_khr_gl_sharing"

/-- Device selection in `Core.__init__` without an explicit device
(core.py lines 46-65): take the first GPU of the platform when any GPU is
enumerated and `useGPU` holds; otherwise take the first CPU when any CPU is
enumerated; otherwise raise the no-device `RuntimeError` of line 65. -/
def selectDevice (gpuDevices cpuDevices : List Device) (useGPU : Bool) :
    Except CoreError Device :=
  match gpuDevices, useGPU with
  | g :: _, true => Except.ok g
  | _, _ =>
    match cpuDevices with
    | c :: _ => Except.ok c
    | [] => Except.error CoreError.noDeviceAvailable

/-- The attribute names the `Core` class defines on its instances: its
methods, static methods and properties (core.py lines 29-243), plus the
instance fields assigned in `__init__`. -/
def coreAttributeNames : List String :=
  ["enableCompilerCache", "enableCompilerOutput", "isUsingGPU", "isUsingCPU",
   "device", "platform", "context", "useGLInterop", "hasSharedMemory",
   "deviceType", "gpuDevices", "cpuDevices", "computeUnits",
   "maxWorkGroupSize", "max2DImageSize", "max3DImageSize", "localMemorySize",
   "globalMemorySize", "hasFloat16", "hasDouble", "hasGLShareExtension",
   "_isUsingGPU", "_gl_interop", "_clDevice", "_device", "_platform",
   "_context"]

/-- The plain (non-interop) context construction of core.py lines 78-79 and
82-83: `cl.Context(properties=[(PLATFORM, platform)], devices=[device])`. -/
def plainContext (p : Platform) (d : Device) : CLContext :=
  { platform := p, devices := [d], glSharing := false }

/-- The `try`/`except` block of core.py lines 70-79: attempt the GL-sharing
context (built from the platform plus `get_gl_sharing_context_properties()`,
with no explicit device list) and set `_gl_interop = True`; on any failure of
that construction, fall back to the plain context for the selected device and
leave `_gl_interop = False`.  `glCtxOk` is whether the GL-sharing
`cl.Context(...)` call succeeds at runtime.  Returns the context paired with
the resulting `_gl_interop` flag; the block catches every exception, so it
never raises. -/
def interopContextAttempt (p : Platform) (d : Device) (glCtxOk : Bool) :
    CLContext × Bool :=
  if glCtxOk then
    ({ platform := p, devices := [], glSharing := true }, true)
  else
    (plainContext p d, false)

/-- `Core.__init__` without an explicit device (core.py lines 29-83).
`p` is `cl.get_platforms()[0]`, `haveGL` is `cl.have_gl()`, and `glCtxOk` is
whether a GL-sharing `cl.Context(...)` call would succeed.  After device
selection, line 67 evaluates `self.isUsingGpu()`: Python attribute lookup is
case-sensitive and the class defines `isUsingGPU`, not `isUsingGpu`, so the
lookup is checked against the attribute names of the class and raises
`AttributeError` when absent. -/
def coreInit (p : Platform) (useGPU : Bool) (haveGL : Bool) (glCtxOk : Bool) :
    Except CoreError CoreState :=
  match selectDevice p.gpuDevices p.cpuDevices useGPU with
  | Except.error e => Except.error e
  | Except.ok d =>
    if coreAttributeNames.contains "isUsingGpu" then
      if isUsingGPU d && haveGL && hasGLShareExtension p then
        let r := interopContextAttempt p d glCtxOk
        Except.ok { device := d, platform := p, context := r.1, glInterop := r.2 }
      else
        Except.ok { device := d, platform := p, context := plainContext p d,
                    glInterop := false }
    else
      Except.error CoreError.attributeError

/-- The per-kernel work-group information a compiled entry point reports via
`kernel.get_work_group_info(...)` on the bound device (sim.py lines 122,
137-139, 152-153). -/
structure KernelInfo where
  localMemSize : Int
  preferredWorkGroupSizeMultiple : Int
  workGroupSizeMax : Int
  deriving DecidableEq, Repr

/-- A compiled `cl.Program`: the list returned by `program.all_kernels()`. -/
structure ClProgram where
  allKernels : List KernelInfo
  deriving DecidableEq, Repr

/-- The instance fields of `OpenCLSimBase` (sim.py lines 15-22).  The
runtime handles `ocl`, `queue` and `kernel` are modelled by `Option`s
recording whether they are bound; the Python work-group-size tuple is
modelled as a list of integers. -/
structure SimState where
  ocl : Option CoreState
  queue : Option Unit
  program : Option ClProgram
  kernel : Option String
  isDebugBuild : Bool
  workGroupSize : List Int
  dims : Nat
  deriving DecidableEq, Repr

/-- `OpenCLSimBase.__init__` (sim.py lines 15-22): nothing bound, debug build
off, work-group size `(64, 1)`, problem dimension 2. -/
def simInit : SimState :=
  { ocl := none, queue := none, program := none, kernel := none,
    isDebugBuild := false, workGroupSize := [64, 1], dims := 2 }

/-- `OpenCLSimBase.setDebugBuild` (sim.py lines 50-56). -/
def setDebugBuild (s : SimState) (state : Bool) : SimState :=
  { s with isDebugBuild := state }

/-- The `workGroupSize` property setter (sim.py lines 102-109). -/
def setWorkGroupSize (s : SimState) (wgSize : List Int) : SimState :=
  { s with workGroupSize := wgSize }

/-- `OpenCLSimBase.isKernelAvailable` (sim.py lines 88-89): the truth value
of `self.program and len(self.program.all_kernels())` — false when `program`
is `None` or its kernel list is empty. -/
def isKernelAvailable (s : SimState) : Bool :=
  match s.program with
  | none => false
  | some prog => prog.allKernels.length != 0

/-- Truth value, in Python, of the bound-method object `self.isDebugBuild`.
`isDebugBuild` (sim.py lines 59-65) is a plain method, not a property, so
the attribute access at line 37 yields the method object itself without
calling it, and a bound method is always truthy. -/
def boundMethodTruthy : Bool := true

/-- The `buildOptions` list assembled by `OpenCLSimBase.initialiseCL`
(sim.py lines 35-38) and passed to `.build(options=...)`: starts empty, then
`if self.isDebugBuild:` appends the flag "-g".  The condition tests the bound
method object, not the `_isDebugBuild` field. -/
def buildOptions (_s : SimState) : List String :=
  if boundMethodTruthy then ["-g"] else []

/-- `OpenCLSimBase.getLocalMemorySize` (sim.py lines 112-123): `-1` when the
kernel is not available, else `LOCAL_MEM_SIZE` of the first entry point. -/
def getLocalMemorySize (s : SimState) : Int :=
  if isKernelAvailable s then
    match s.program with
    | none => -1
    | some prog =>
      match prog.allKernels with
      | [] => -1
      | k :: _ => k.localMemSize
  else -1

/-- `OpenCLSimBase.getRecommendedWorkGroupSizeMultiple` (sim.py lines
126-139): `-1` when the kernel is not available, else
`PREFERRED_WORK_GROUP_SIZE_MULTIPLE` of the first entry point. -/
def getRecommendedWorkGroupSizeMultiple (s : SimState) : Int :=
  if isKernelAvailable s then
    match s.program with
    | none => -1
    | some prog =>
      match prog.allKernels with
      | [] => -1
      | k :: _ => k.preferredWorkGroupSizeMultiple
  else -1

/-- `OpenCLSimBase.getMaximumWorkGroupSize` (sim.py lines 142-153): `-1`
when the kernel is not available, else `WORK_GROUP_SIZE` of the first entry
point. -/
def getMaximumWorkGroupSize (s : SimState) : Int :=
  if isKernelAvailable s then
    match s.program with
    | none => -1
    | some prog =>
      match prog.allKernels with
      | [] => -1
      | k :: _ => k.workGroupSizeMax
  else -1

/-- Claim C1: without an explicit device, if `useGPU` holds and the platform
enumerates at least one GPU, the first GPU in enumeration order is selected
(never a CPU, whatever the CPU list holds); otherwise, if at least one CPU is
enumerated, the first CPU is selected and no error is raised. -/
theorem core_device_selection_policy (gpuDevices cpuDevices : List Device)
    (useGPU : Bool) (hg : ∀ d ∈ gpuDevices, d.devType = DevType.GPU) :
    (∀ g gs, gpuDevices = g :: gs → useGPU = true →
      selectDevice gpuDevices cpuDevices useGPU = Except.ok g ∧
      g.devType = DevType.GPU ∧ g.devType ≠ DevType.CPU) ∧
    (∀ c cs, (gpuDevices = [] ∨ useGPU = false) → cpuDevices = c :: cs →
      selectDevice gpuDevices cpuDevices useGPU = Except.ok c) := by
  constructor
  · intro g gs hgp hu
    subst hgp; subst hu
    have hG : g.devType = DevType.GPU := hg g (List.mem_cons_self _ _)
    refine ⟨rfl, hG, ?_⟩
    rw [hG]; decide
  · intro c cs hor hc
    subst hc
    rcases hor with h | h
    · subst h; cases useGPU <;> rfl
    · subst h; cases gpuDevices <;> rfl

/-- Witness for C1 at a concrete platform: two GPUs and one CPU with
`useGPU = true` select the first GPU, which is not a CPU. -/
theorem core_device_selection_policy_witness :
    selectDevice [⟨DevType.GPU, 0⟩, ⟨DevType.GPU, 1⟩] [⟨DevType.CPU, 2⟩] true
      = Except.ok ⟨DevType.GPU, 0⟩ ∧
    (⟨DevType.GPU, 0⟩ : Device).devType ≠ DevType.CPU := by
  have h := core_device_selection_policy
    [⟨DevType.GPU, 0⟩, ⟨DevType.GPU, 1⟩] [⟨DevType.CPU, 2⟩] true (by decide)
  have h2 := h.1 ⟨DevType.GPU, 0⟩ [⟨DevType.GPU, 1⟩] rfl rfl
  exact ⟨h2.1, h2.2.2⟩

/-- Claim C2: without an explicit device, a platform that enumerates zero GPU
devices and zero CPU devices makes construction fail immediately with the
no-device `RuntimeError`; no device or context is produced. -/
theorem core_no_device_available (p : Platform) (useGPU haveGL glCtxOk : Bool)
    (hg : p.gpuDevices = []) (hc : p.cpuDevices = []) :
    coreInit p useGPU haveGL glCtxOk
      = Except.error CoreError.noDeviceAvailable := by
  cases useGPU <;> simp [coreInit, selectDevice, hg, hc]

/-- Witness for C2 at the concrete empty platform. -/
theorem core_no_device_available_witness :
    coreInit ⟨[], [], []⟩ true true true
      = Except.error CoreError.noDeviceAvailable :=
  core_no_device_available ⟨[], [], []⟩ true true true rfl rfl

/-- Claim C3, failing input: a platform with one GPU, `useGPU = true`, a
driver reporting GL support and the sharing extension advertised.  The
claimed interop attempt never happens: line 67 of core.py looks up
`isUsingGpu`, which is not among the attributes `Core` defines (the method is
`isUsingGPU`), so construction raises `AttributeError` instead of building
any context. -/
theorem core_init_interop_attribute_error :
    coreAttributeNames.contains "isUsingGpu" = false ∧
    coreInit ⟨[⟨DevType.GPU, 0⟩], [], ["cl_khr_gl_sharing"]⟩ true true true
      = Except.error CoreError.attributeError :=
  ⟨rfl, rfl⟩

/-- Claim C4: when the GL-sharing context construction is attempted and
fails, the whole construction does not fail: the fallback is the plain
context for the same selected device, the interop flag is false, and (last
conjunct) the flag is true exactly when the GL-sharing construction
succeeded.  `interopContextAttempt` is total, so no error propagates. -/
theorem core_glinterop_fallback (p : Platform) (d : Device) (glCtxOk : Bool)
    (h : glCtxOk = false) :
    (interopContextAttempt p d glCtxOk).1 = plainContext p d ∧
    (interopContextAttempt p d glCtxOk).1.devices = [d] ∧
    (interopContextAttempt p d glCtxOk).2 = false ∧
    (∀ b : Bool, (interopContextAttempt p d b).2 = true ↔ b = true) := by
  subst h
  refine ⟨rfl, rfl, rfl, ?_⟩
  intro b; cases b <;> simp [interopContextAttempt]

/-- Witness for C4 at a concrete platform and device with a failing
GL-sharing construction. -/
theorem core_glinterop_fallback_witness :
    (interopContextAttempt ⟨[], [], []⟩ ⟨DevType.GPU, 0⟩ false).1
      = plainContext ⟨[], [], []⟩ ⟨DevType.GPU, 0⟩ ∧
    (interopContextAttempt ⟨[], [], []⟩ ⟨DevType.GPU, 0⟩ false).2 = false := by
  have h := core_glinterop_fallback ⟨[], [], []⟩ ⟨DevType.GPU, 0⟩ false rfl
  exact ⟨h.1, h.2.2.1⟩

/-- Claim C5: whenever `isKernelAvailable` is false, the three introspection
operations return the sentinel `-1` (and, being total functions, raise
nothing). -/
theorem sim_notready_sentinels (s : SimState)
    (h : isKernelAvailable s = false) :
    getLocalMemorySize s = -1 ∧
    getRecommendedWorkGroupSizeMultiple s = -1 ∧
    getMaximumWorkGroupSize s = -1 := by
  simp [getLocalMemorySize, getRecommendedWorkGroupSizeMultiple,
    getMaximumWorkGroupSize, h]

/-- Witness for C5 at the concrete fresh instance, where no program is
bound. -/
theorem sim_notready_sentinels_witness :
    isKernelAvailable simInit = false ∧ getLocalMemorySize simInit = -1 ∧
    getRecommendedWorkGroupSizeMultiple simInit = -1 ∧
    getMaximumWorkGroupSize simInit = -1 := by
  have h := sim_notready_sentinels simInit rfl
  exact ⟨rfl, h.1, h.2.1, h.2.2⟩

/-- Claim C6: setting the work-group size and reading it back returns
exactly the value set, in particular `(16, 16)`. -/
theorem sim_workgroupsize_roundtrip (s : SimState) (t : List Int) :
    (setWorkGroupSize s t).workGroupSize = t ∧
    (setWorkGroupSize s [16, 16]).workGroupSize = [16, 16] :=
  ⟨rfl, rfl⟩

/-- Claim C7, failing input: a fresh instance whose debug-build state is
false (also explicitly re-set to false).  The claim says `-g` is emitted iff
the debug state is true, but `initialiseCL` tests the truthy bound-method
object `self.isDebugBuild` instead of calling it, so `-g` is emitted even
with the debug state false. -/
theorem sim_debug_flag_always_emitted :
    simInit.isDebugBuild = false ∧
    (setDebugBuild simInit false).isDebugBuild = false ∧
    buildOptions simInit = ["-g"] ∧
    buildOptions (setDebugBuild simInit false) = ["-g"] :=
  ⟨rfl, rfl, rfl, rfl⟩

/-- Claim C8, failing input: `enableCompilerCache` applied to `ENABLE_CACHE`
versus any other flag.  Both branches of its conditional write the string
"1" to `PYOPENCL_NO_CACHE`, so the two calls produce the same environment
setting, not distinct ones; the compiler-output toggle, by contrast, does
produce distinct settings. -/
theorem core_compiler_cache_toggle_constant :
    enableCompilerCache OpenCLFlags.ENABLE_CACHE
      = enableCompilerCache OpenCLFlags.ENABLE_DEBUG ∧
    enableCompilerCache OpenCLFlags.ENABLE_CACHE = "1" ∧
    enableCompilerOutput OpenCLFlags.ENABLE_COMPILER_OUTPUT
      ≠ enableCompilerOutput OpenCLFlags.ENABLE_DEBUG := by
  refine ⟨rfl, rfl, ?_⟩
  decide

/-- Claim C9, failing input: evaluating the `OpenCLFlags` class body.  Line
16 of core.py references the name `asuto`, which is bound nowhere in the
module scope, so the enumeration definition raises `NameError` instead of
succeeding as claimed. -/
theorem openclflags_name_resolution_fails :
    openCLFlagsDefines = false ∧
    "asuto" ∈ openCLFlagsBodyRefs ∧
    "asuto" ∉ coreModuleScope := by
  decide

/-- Claim C10: a freshly constructed `OpenCLSimBase` has work-group size
`(64, 1)`, problem dimension 2, debug-build state false, no context, queue,
program or kernel bound, and `isKernelAvailable` false. -/
theorem sim_fresh_instance_defaults :
    simInit.workGroupSize = [64, 1] ∧ simInit.dims = 2 ∧
    simInit.isDebugBuild = false ∧ simInit.ocl = none ∧
    simInit.queue = none ∧ simInit.program = none ∧ simInit.kernel = none ∧
    isKernelAvailable simInit = false :=
  ⟨rfl, rfl, rfl, rfl, rfl, rfl, rfl, rfl⟩

end PyOCL
